import Mathlib

/-!
Verification of the lintrunner CLI entry point (`src/main.rs`).

The file shallowly embeds `do_main` and `main` from `src/main.rs`. External
collaborators that live in the lintrunner library crate (path resolution,
data-store creation, config loading, the subcommand implementations, the
ledger write) are abstracted as an explicit environment `Env` carrying the
outcome of each external call; the observable behaviour of a run is captured
as a trace of `Event` values together with the returned result. Library
functions whose behaviour the claims depend on but whose code is not part of
this repository slice are modelled from the specification and marked as such
in their doc comments.
-/

set_option linter.unusedVariables false

namespace Lintrunner

/-- Output format selector, mirroring the `RenderOpt` values referenced by
`src/main.rs` (`--output`: default, json, oneline). -/
inductive RenderOpt
  | default
  | json
  | oneline
  deriving DecidableEq

/-- The CLI subcommands, mirroring `enum SubCommand` in `src/main.rs`. -/
inductive SubCommand
  | init (dryRun : Bool)
  | format
  | lint
  | rage (invocation : Option Nat)
  deriving DecidableEq

/-- The parsed command-line arguments, mirroring `struct Args` in
`src/main.rs`. Argument parsing itself is an external collaborator; this
structure is its output. -/
structure Args where
  verbose : Nat
  config : String
  applyPatches : Bool
  pathsCmd : Option String
  pathsFrom : Option String
  revision : Option String
  mergeBaseWith : Option String
  skip : Option String
  take : Option String
  output : RenderOpt
  cmd : Option SubCommand
  paths : List String
  forceColor : Bool
  dataPath : Option String
  teeJson : Option String
  allFiles : Bool
  deriving DecidableEq

/-- One configured linter, mirroring the fields of the lint configuration
entries that `src/main.rs` reads (`name` and the `is_formatter` flag are the
fields it uses). -/
structure LintConfig where
  name : String
  isFormatter : Bool
  deriving DecidableEq

/-- The loaded configuration, mirroring the fields of `LintRunnerConfig`
used by `src/main.rs`: the linter list and the default merge-base target. -/
structure LintRunnerConfig where
  linters : List LintConfig
  mergeBaseWith : String
  deriving DecidableEq

/-- Revision selection, mirroring `RevisionOpt` as constructed in
`src/main.rs` lines 211-219. -/
inductive RevisionOpt
  | head
  | revision (rev : String)
  | mergeBaseWith (rev : String)
  deriving DecidableEq

/-- Path selection, mirroring `PathsOpt` as constructed in `src/main.rs`
lines 221-233. -/
inductive PathsOpt
  | pathsFile (f : String)
  | pathsCmd (c : String)
  | paths (ps : List String)
  | allFiles
  | auto
  deriving DecidableEq

/-- Run metadata recorded at the start of an invocation, mirroring
`RunInfo` (`src/main.rs` lines 152-155): the invocation arguments and a
start timestamp. -/
structure RunInfo where
  args : List String
  timestamp : String
  deriving DecidableEq

/-- Exit metadata recorded at the end of an invocation, mirroring
`ExitInfo` (`src/main.rs` lines 268-277): the exit code and the error
description when the run failed. -/
structure ExitInfo where
  code : Int
  err : Option String
  deriving DecidableEq

/-- Observable events of one invocation, in the order they happen. The
ledger events model the append performed by `PersistentDataStore::new`
(which receives the `RunInfo`) and the finalization performed by
`write_run_info`; the staleness events model `check_init_changed`; the run
events record each subcommand dispatch with the exact arguments passed. -/
inductive Event
  | ledgerStart (info : RunInfo)
  | stalenessCheck
  | stalenessWarning
  | initRun (dryRun : Bool)
  | lintRun (linters : List LintConfig) (pathsOpt : PathsOpt) (applyPatches : Bool)
      (output : RenderOpt) (enableSpinners : Bool) (revisionOpt : RevisionOpt)
      (teeJson : Option String)
  | rageRun (invocation : Option Nat)
  | ledgerFinalize (info : ExitInfo)
  | printError (message : String)
  deriving DecidableEq

/-- Outcomes of every external call `do_main` makes into the lintrunner
library crate, one field per call site in `src/main.rs`. A field of type
`Option String` is `some e` when that call fails with error `e`; fallible
calls that also produce a value use `Except`. The subcommand
implementations (`do_init`, `do_lint`, `do_rage`) are abstracted as
functions from the exact arguments `src/main.rs` passes them to their
result. -/
structure Env where
  absPath : String → Except String String
  envArgs : List String
  now : String
  dataStoreErr : Option String
  loggerErr : Option String
  headRev : Except String String
  configRes : Except String LintRunnerConfig
  getLintersErr : Option String
  configFingerprint : Nat
  initFingerprint : Nat
  doInitRes : Bool → List LintConfig → Except String Int
  doLintRes : List LintConfig → PathsOpt → Bool → RenderOpt → Bool → RevisionOpt →
      Option String → Except String Int
  doRageRes : Option Nat → Except String Int
  writeErr : Option String

/-- Log level table from `src/main.rs` lines 138-150. -/
inductive LevelFilter
  | error
  | info
  | debug
  | trace
  deriving DecidableEq

/-- The log level computed in `src/main.rs` lines 138-150 from verbosity
and the output mode. -/
def logLevel (args : Args) : LevelFilter :=
  match args.verbose, decide (args.output ≠ RenderOpt.default) with
  | 0, false => LevelFilter.info
  | 0, true => LevelFilter.error
  | 1, false => LevelFilter.debug
  | 1, true => LevelFilter.debug
  | _, _ => LevelFilter.trace

/-- The `RunInfo` built at `src/main.rs` lines 152-155 from the process
arguments and the current time. -/
def runInfoOf (env : Env) : RunInfo :=
  { args := env.envArgs, timestamp := env.now }

/-- The skip set parsed in `src/main.rs` lines 172-177: the `--skip`
argument split on commas. -/
def skippedLinters (args : Args) : Option (List String) :=
  args.skip.map fun linters => linters.splitOn ","

/-- The take set parsed in `src/main.rs` lines 178-183: the `--take`
argument split on commas. -/
def takenLinters (args : Args) : Option (List String) :=
  args.take.map fun linters => linters.splitOn ","

/-- The candidate linter set from `src/main.rs` lines 191-204: for the
Format subcommand the configured linters are pre-restricted to formatters;
every other subcommand considers all configured linters. -/
def allLintersOf (cmd : SubCommand) (lintRunnerConfig : LintRunnerConfig) : List LintConfig :=
  match cmd with
  | SubCommand.format => lintRunnerConfig.linters.filter fun l => l.isFormatter
  | _ => lintRunnerConfig.linters

/-- Modelled from the spec: `get_linters_from_config` lives in the
lintrunner library crate and is not part of this repository slice. Per the
Linter Registry View contract, when both skip and take are given skip
removes linters first and take narrows the remainder; unknown names are
silently ignored. -/
def getLintersFromConfig (allLinters : List LintConfig)
    (skipped taken : Option (List String)) : List LintConfig :=
  (allLinters.filter fun l =>
      match skipped with
      | some s => !(s.contains l.name)
      | none => true).filter fun l =>
    match taken with
    | some t => t.contains l.name
    | none => true

/-- The spinner flag computed at `src/main.rs` line 209. -/
def enableSpinners (args : Args) : Bool :=
  decide (args.verbose = 0) && decide (args.output = RenderOpt.default)

/-- The revision selection from `src/main.rs` lines 211-219: an explicit
`--revision` wins, then `--merge-base-with`, then a non-empty
`merge_base_with` default from the configuration, else HEAD. -/
def revisionOpt (args : Args) (lintRunnerConfig : LintRunnerConfig) : RevisionOpt :=
  match args.revision with
  | some revision => RevisionOpt.revision revision
  | none =>
    match args.mergeBaseWith with
    | some mergeBaseWith => RevisionOpt.mergeBaseWith mergeBaseWith
    | none =>
      if lintRunnerConfig.mergeBaseWith = "" then RevisionOpt.head
      else RevisionOpt.mergeBaseWith lintRunnerConfig.mergeBaseWith

/-- The path selection from `src/main.rs` lines 221-233: `--paths-from`
(resolved to an absolute path, which may fail), then `--paths-cmd`, then
the positional path list, then `--all-files`, else the automatic default.
-/
def pathsOptRes (env : Env) (args : Args) : Except String PathsOpt :=
  match args.pathsFrom with
  | some pathsFile =>
    match env.absPath pathsFile with
    | Except.ok pathFile => Except.ok (PathsOpt.pathsFile pathFile)
    | Except.error _ =>
      Except.error ("Failed to find --paths-from file " ++ pathsFile)
  | none =>
    match args.pathsCmd with
    | some pathsCmd => Except.ok (PathsOpt.pathsCmd pathsCmd)
    | none =>
      if !args.paths.isEmpty then Except.ok (PathsOpt.paths args.paths)
      else if args.allFiles then Except.ok PathsOpt.allFiles
      else Except.ok PathsOpt.auto

/-- Modelled from the spec: `check_init_changed` lives in the lintrunner
library crate and is not part of this repository slice. Per the Run Ledger
and Staleness Tracker contract, it compares the current ConfigFingerprint
with the fingerprint recorded at the last successful init; on mismatch it
surfaces a non-fatal StalenessWarning and execution proceeds. -/
def checkInitChanged (env : Env) : List Event :=
  if env.configFingerprint = env.initFingerprint then
    [Event.stalenessCheck]
  else
    [Event.stalenessCheck, Event.stalenessWarning]

/-- The subcommand dispatch from `src/main.rs` lines 235-266: Init runs
initialization only; Format checks staleness and lints with patches always
applied; Lint checks staleness and lints with the user-supplied
apply-patches flag; Rage reports on a past invocation. Returns the emitted
events and the subcommand result. -/
def runSubcommand (env : Env) (args : Args) (cmd : SubCommand)
    (linters : List LintConfig) (pOpt : PathsOpt) (revOpt : RevisionOpt) :
    List Event × Except String Int :=
  match cmd with
  | SubCommand.init dryRun =>
    ([Event.initRun dryRun], env.doInitRes dryRun linters)
  | SubCommand.format =>
    (checkInitChanged env ++
      [Event.lintRun linters pOpt true args.output (enableSpinners args) revOpt args.teeJson],
     env.doLintRes linters pOpt true args.output (enableSpinners args) revOpt args.teeJson)
  | SubCommand.lint =>
    (checkInitChanged env ++
      [Event.lintRun linters pOpt args.applyPatches args.output (enableSpinners args) revOpt
        args.teeJson],
     env.doLintRes linters pOpt args.applyPatches args.output (enableSpinners args) revOpt
       args.teeJson)
  | SubCommand.rage invocation =>
    ([Event.rageRun invocation], env.doRageRes invocation)

/-- The `ExitInfo` built from the subcommand result at `src/main.rs`
lines 268-277: the code on success, code 1 with the error text on failure.
-/
def mkExitInfo (res : Except String Int) : ExitInfo :=
  match res with
  | Except.ok code => { code := code, err := none }
  | Except.error err => { code := 1, err := some err }

/-- Shallow embedding of `do_main` (`src/main.rs` lines 128-283). Each
fallible external call aborts the run with its error exactly where the Rust
code applies the question-mark operator; the returned trace records the
observable events in program order. -/
def doMain (env : Env) (args : Args) : List Event × Except String Int :=
  match env.absPath args.config with
  | Except.error _ =>
    ([], Except.error ("Could not read lintrunner config at: " ++ args.config))
  | Except.ok _configPath =>
    match env.dataStoreErr with
    | some e => ([], Except.error e)
    | none =>
      let startTrace : List Event := [Event.ledgerStart (runInfoOf env)]
      match env.loggerErr with
      | some e => (startTrace, Except.error e)
      | none =>
        match env.headRev with
        | Except.error e => (startTrace, Except.error e)
        | Except.ok _ =>
          match env.configRes with
          | Except.error e => (startTrace, Except.error e)
          | Except.ok lintRunnerConfig =>
            let cmd := args.cmd.getD SubCommand.lint
            match env.getLintersErr with
            | some e => (startTrace, Except.error e)
            | none =>
              let linters := getLintersFromConfig (allLintersOf cmd lintRunnerConfig)
                (skippedLinters args) (takenLinters args)
              let revOpt := revisionOpt args lintRunnerConfig
              match pathsOptRes env args with
              | Except.error e => (startTrace, Except.error e)
              | Except.ok pOpt =>
                let sub := runSubcommand env args cmd linters pOpt revOpt
                let exitInfo := mkExitInfo sub.2
                match env.writeErr with
                | some e => (startTrace ++ sub.1, Except.error e)
                | none =>
                  (startTrace ++ sub.1 ++ [Event.ledgerFinalize exitInfo], sub.2)

/-- Shallow embedding of `main` (`src/main.rs` lines 285-303): on an error
result a descriptive message is printed and the process exits with code 1;
on success the process exits with the returned code. -/
def main (env : Env) (args : Args) : List Event × Int :=
  match doMain env args with
  | (trace, Except.ok code) => (trace, code)
  | (trace, Except.error err) => (trace ++ [Event.printError err], 1)

/-- Modelled from the spec: the Path Resolver and `do_lint` live in the
lintrunner library crate and are not part of this repository slice. Per the
Path Resolver contract, the working tree is diffed against a base revision:
HEAD for the automatic default, the given revision for AgainstRevision, and
the merge-base of the given revision with HEAD for AgainstMergeBaseWith. -/
inductive DiffBase
  | workingVsRev (rev : String)
  deriving DecidableEq

/-- Modelled from the spec: the base revision the run diffs against for
each `RevisionOpt`, given the current HEAD and the merge-base function of
the source-control collaborator. -/
def diffBaseOf (head : String) (mergeBase : String → String → String) :
    RevisionOpt → DiffBase
  | RevisionOpt.head => DiffBase.workingVsRev head
  | RevisionOpt.revision r => DiffBase.workingVsRev r
  | RevisionOpt.mergeBaseWith r => DiffBase.workingVsRev (mergeBase r head)

/-- True exactly on ledger-start events. -/
def isLedgerStart : Event → Bool
  | Event.ledgerStart _ => true
  | _ => false

/-- True exactly on ledger-finalize events. -/
def isLedgerFinalize : Event → Bool
  | Event.ledgerFinalize _ => true
  | _ => false

/-- True exactly on lint-run events. -/
def isLintRun : Event → Bool
  | Event.lintRun _ _ _ _ _ _ _ => true
  | _ => false

/-- The apply-patches flag of a lint-run event, `none` on other events. -/
def patchFlag? : Event → Option Bool
  | Event.lintRun _ _ ap _ _ _ _ => some ap
  | _ => none

/-- The linter list of a lint-run event, `none` on other events. -/
def lintRunLinters? : Event → Option (List LintConfig)
  | Event.lintRun linters _ _ _ _ _ _ => some linters
  | _ => none

/-- All external calls made before the subcommand dispatch succeed: the
config path resolves, the data store is created, the logger starts, HEAD
resolves, the configuration loads, linter selection succeeds and the path
selector is built. -/
def setupOk (env : Env) (args : Args) : Prop :=
  (∃ p, env.absPath args.config = Except.ok p) ∧
  env.dataStoreErr = none ∧
  env.loggerErr = none ∧
  (∃ r, env.headRev = Except.ok r) ∧
  (∃ cfg, env.configRes = Except.ok cfg) ∧
  env.getLintersErr = none ∧
  (∃ pOpt, pathsOptRes env args = Except.ok pOpt)

/-- The subcommand dispatch exactly as `doMain` performs it once setup has
succeeded with configuration `cfg` and path selector `pOpt`. -/
def mainSub (env : Env) (args : Args) (cfg : LintRunnerConfig) (pOpt : PathsOpt) :
    List Event × Except String Int :=
  runSubcommand env args (args.cmd.getD SubCommand.lint)
    (getLintersFromConfig (allLintersOf (args.cmd.getD SubCommand.lint) cfg)
      (skippedLinters args) (takenLinters args)) pOpt (revisionOpt args cfg)

/-- A demonstration configuration: one formatter and one plain linter. -/
def cfgDemo : LintRunnerConfig :=
  { linters := [{ name := "BLACK", isFormatter := true },
      { name := "FLAKE8", isFormatter := false }],
    mergeBaseWith := "" }

/-- A demonstration configuration with a non-empty default merge-base. -/
def cfgMb : LintRunnerConfig :=
  { linters := cfgDemo.linters, mergeBaseWith := "origin/main" }

/-- Baseline invocation arguments: no flags, no subcommand. -/
def argsBase : Args :=
  { verbose := 0, config := ".lintrunner.toml", applyPatches := false, pathsCmd := none,
    pathsFrom := none, revision := none, mergeBaseWith := none, skip := none,
    take := none, output := RenderOpt.default, cmd := none, paths := [],
    forceColor := false, dataPath := none, teeJson := none, allFiles := false }

/-- Arguments with an explicit revision. -/
def argsRev : Args := { argsBase with revision := some "HEAD~3" }

/-- Arguments with a merge-base target. -/
def argsMb : Args := { argsBase with mergeBaseWith := some "main" }

/-- Arguments with a paths file. -/
def argsFrom : Args := { argsBase with pathsFrom := some "list.txt" }

/-- Arguments with a paths command. -/
def argsCmdP : Args := { argsBase with pathsCmd := some "git grep -Il ." }

/-- Arguments with an explicit path list. -/
def argsPaths : Args := { argsBase with paths := ["a.py", "b.py"] }

/-- Arguments selecting every file. -/
def argsAll : Args := { argsBase with allFiles := true }

/-- Arguments invoking the Format subcommand with a take list naming both
configured linters, and without the apply-patches flag. -/
def argsFormat : Args :=
  { argsBase with cmd := some SubCommand.format, take := some "BLACK,FLAKE8" }

/-- Arguments invoking the Rage subcommand. -/
def argsRage : Args := { argsBase with cmd := some (SubCommand.rage none) }

/-- Baseline environment: every external call succeeds, the fingerprints
match, and the core lint reports success. -/
def envBase : Env :=
  { absPath := fun s => Except.ok ("/repo/" ++ s)
    envArgs := ["lintrunner"]
    now := "2024-01-01T00:00:00.000Z"
    dataStoreErr := none
    loggerErr := none
    headRev := Except.ok "abc123"
    configRes := Except.ok cfgDemo
    getLintersErr := none
    configFingerprint := 1
    initFingerprint := 1
    doInitRes := fun _ _ => Except.ok 0
    doLintRes := fun _ _ _ _ _ _ _ => Except.ok 0
    doRageRes := fun _ => Except.ok 0
    writeErr := none }

/-- Environment in which the configuration path does not resolve. -/
def envNoConfig : Env := { envBase with absPath := fun _ => Except.error "No such file" }

/-- Environment whose stored init fingerprint differs from the current
configuration fingerprint. -/
def envStale : Env := { envBase with initFingerprint := 2 }

/-- Environment in which only the final run-history write fails. -/
def envWriteFail : Env := { envBase with writeErr := some "disk full" }

/-- C1: the entry point returns a process exit code with 0 meaning success;
for every invocation whose core run returns an error, the process prints a
descriptive error message and exits with code 1, and for every invocation
that returns a code the process exits with exactly that code. -/
theorem main_exit_code_contract (env : Env) (args : Args) :
    (∀ code, (doMain env args).2 = Except.ok code → (main env args).2 = code) ∧
    (∀ err, (doMain env args).2 = Except.error err →
      (main env args).2 = 1 ∧ Event.printError err ∈ (main env args).1) := by
  unfold main
  rcases hd : doMain env args with ⟨trace, res⟩
  cases res with
  | ok c =>
    refine ⟨?_, ?_⟩
    · intro code h
      simp only [Except.ok.injEq] at h
      simp [h]
    · intro err h
      simp at h
  | error e =>
    refine ⟨?_, ?_⟩
    · intro code h
      simp at h
    · intro err h
      simp only [Except.error.injEq] at h
      subst h
      simp

/-- C9: the revision selector precedence: an explicit revision argument
wins over a merge-base-with argument, both win over a non-empty default
merge-base target from the configuration, and a non-empty configuration
default is used as a merge-base selector instead of falling back to HEAD.
-/
theorem revision_opt_precedence (args : Args) (cfg : LintRunnerConfig) :
    (∀ r, args.revision = some r → revisionOpt args cfg = RevisionOpt.revision r) ∧
    (∀ m, args.revision = none → args.mergeBaseWith = some m →
      revisionOpt args cfg = RevisionOpt.mergeBaseWith m) ∧
    (args.revision = none → args.mergeBaseWith = none → cfg.mergeBaseWith ≠ "" →
      revisionOpt args cfg = RevisionOpt.mergeBaseWith cfg.mergeBaseWith) ∧
    (args.revision = none → args.mergeBaseWith = none → cfg.mergeBaseWith = "" →
      revisionOpt args cfg = RevisionOpt.head) := by
  refine ⟨?_, ?_, ?_, ?_⟩ <;> intros <;> simp_all [revisionOpt]

/-- C4: with the automatic default path selector, when no revision
selector results (no revision argument, no merge-base argument and an
empty configuration default) the run diffs against the current HEAD; a
revision argument makes it diff against that revision, and a merge-base
argument (or non-empty configuration default) makes it diff against the
merge-base of that revision with HEAD. -/
theorem auto_default_diff_target (env : Env) (args : Args) (cfg : LintRunnerConfig)
    (head : String) (mergeBase : String → String → String)
    (hauto : pathsOptRes env args = Except.ok PathsOpt.auto) :
    (args.revision = none → args.mergeBaseWith = none → cfg.mergeBaseWith = "" →
      diffBaseOf head mergeBase (revisionOpt args cfg) = DiffBase.workingVsRev head) ∧
    (∀ r, args.revision = some r →
      diffBaseOf head mergeBase (revisionOpt args cfg) = DiffBase.workingVsRev r) ∧
    (∀ r, args.revision = none → args.mergeBaseWith = some r →
      diffBaseOf head mergeBase (revisionOpt args cfg) =
        DiffBase.workingVsRev (mergeBase r head)) ∧
    (args.revision = none → args.mergeBaseWith = none → cfg.mergeBaseWith ≠ "" →
      diffBaseOf head mergeBase (revisionOpt args cfg) =
        DiffBase.workingVsRev (mergeBase cfg.mergeBaseWith head)) := by
  refine ⟨?_, ?_, ?_, ?_⟩ <;> intros <;> simp_all [revisionOpt, diffBaseOf]

/-- C5: exactly one path selector is active per run, chosen with the fixed
precedence paths-file, then paths-command, then explicit path list, then
all-files; absent any explicit selector the run falls back to the
automatic default. -/
theorem paths_opt_precedence (env : Env) (args : Args) :
    (∀ f, args.pathsFrom = some f →
      pathsOptRes env args =
        match env.absPath f with
        | Except.ok p => Except.ok (PathsOpt.pathsFile p)
        | Except.error _ => Except.error ("Failed to find --paths-from file " ++ f)) ∧
    (∀ c, args.pathsFrom = none → args.pathsCmd = some c →
      pathsOptRes env args = Except.ok (PathsOpt.pathsCmd c)) ∧
    (args.pathsFrom = none → args.pathsCmd = none → args.paths ≠ [] →
      pathsOptRes env args = Except.ok (PathsOpt.paths args.paths)) ∧
    (args.pathsFrom = none → args.pathsCmd = none → args.paths = [] → args.allFiles = true →
      pathsOptRes env args = Except.ok PathsOpt.allFiles) ∧
    (args.pathsFrom = none → args.pathsCmd = none → args.paths = [] → args.allFiles = false →
      pathsOptRes env args = Except.ok PathsOpt.auto) := by
  refine ⟨?_, ?_, ?_, ?_, ?_⟩ <;> intros <;> simp_all [pathsOptRes]

/-- Helper: every linter selected from a formatter-restricted candidate set
is a formatter, whatever the skip and take sets contain. -/
lemma getLintersFromConfig_all_formatter (base : List LintConfig)
    (skipped taken : Option (List String)) :
    ((getLintersFromConfig (base.filter fun l => l.isFormatter) skipped taken).all
      fun l => l.isFormatter) = true := by
  unfold getLintersFromConfig
  simp only [List.all_eq_true]
  intro l hl
  have h1 := (List.mem_filter.mp hl).1
  have h2 := (List.mem_filter.mp h1).1
  exact (List.mem_filter.mp h2).2

/-- Helper: exhaustive description of what `doMain` can produce — an abort
with an empty trace, an abort after the ledger-start append, an abort on
the final ledger write, or a completed run with the finalize event. -/
lemma doMain_cases (env : Env) (args : Args) :
    ((∃ msg, doMain env args = ([], Except.error msg)) ∧
      ((∀ q, env.absPath args.config ≠ Except.ok q) ∨ env.dataStoreErr ≠ none)) ∨
    (∃ msg, doMain env args = ([Event.ledgerStart (runInfoOf env)], Except.error msg)) ∨
    (∃ cfg pOpt, env.configRes = Except.ok cfg ∧ pathsOptRes env args = Except.ok pOpt ∧
      ((∃ msg, env.writeErr = some msg ∧
        doMain env args =
          ([Event.ledgerStart (runInfoOf env)] ++ (mainSub env args cfg pOpt).1,
            Except.error msg)) ∨
      (env.writeErr = none ∧
        doMain env args =
          ([Event.ledgerStart (runInfoOf env)] ++ (mainSub env args cfg pOpt).1 ++
              [Event.ledgerFinalize (mkExitInfo (mainSub env args cfg pOpt).2)],
            (mainSub env args cfg pOpt).2)))) := by
  rcases h1 : env.absPath args.config with e1 | p
  · exact Or.inl ⟨⟨"Could not read lintrunner config at: " ++ args.config,
      by simp only [doMain, h1]⟩, Or.inl (by simp)⟩
  rcases h2 : env.dataStoreErr with _ | e2
  swap
  · exact Or.inl ⟨⟨e2, by simp only [doMain, h1, h2]⟩, Or.inr (by simp)⟩
  rcases h3 : env.loggerErr with _ | e3
  swap
  · exact Or.inr (Or.inl ⟨e3, by simp only [doMain, h1, h2, h3]⟩)
  rcases h4 : env.headRev with e4 | r
  · exact Or.inr (Or.inl ⟨e4, by simp only [doMain, h1, h2, h3, h4]⟩)
  rcases h5 : env.configRes with e5 | cfg
  · exact Or.inr (Or.inl ⟨e5, by simp only [doMain, h1, h2, h3, h4, h5]⟩)
  rcases h6 : env.getLintersErr with _ | e6
  swap
  · exact Or.inr (Or.inl ⟨e6, by simp only [doMain, h1, h2, h3, h4, h5, h6]⟩)
  rcases h7 : pathsOptRes env args with e7 | pOpt
  · exact Or.inr (Or.inl ⟨e7, by simp only [doMain, h1, h2, h3, h4, h5, h6, h7]⟩)
  rcases h8 : env.writeErr with _ | e8
  · refine Or.inr (Or.inr ⟨cfg, pOpt, rfl, rfl, Or.inr ⟨rfl, ?_⟩⟩)
    simp only [doMain, h1, h2, h3, h4, h5, h6, h7, h8, mainSub]
  · refine Or.inr (Or.inr ⟨cfg, pOpt, rfl, rfl, Or.inl ⟨e8, rfl, ?_⟩⟩)
    simp only [doMain, h1, h2, h3, h4, h5, h6, h7, h8, mainSub]

/-- Helper: the subcommand dispatch trace never contains ledger events. -/
lemma mainSub_countP_ledger (env : Env) (args : Args) (cfg : LintRunnerConfig)
    (pOpt : PathsOpt) :
    (mainSub env args cfg pOpt).1.countP isLedgerStart = 0 ∧
    (mainSub env args cfg pOpt).1.countP isLedgerFinalize = 0 := by
  rcases hc : args.cmd.getD SubCommand.lint with d | _ | _ | i <;>
    by_cases hf : env.configFingerprint = env.initFingerprint <;>
      constructor <;>
        simp [mainSub, runSubcommand, hc, checkInitChanged, hf, isLedgerStart,
          isLedgerFinalize, List.countP_cons, List.countP_append]

/-- C10: the staleness check happens only for the Lint and Format
subcommands; Init and Rage invocations never perform the comparison and
never surface a staleness warning. -/
theorem staleness_only_lint_and_format (env : Env) (args : Args)
    (h : (∃ d, args.cmd = some (SubCommand.init d)) ∨
      ∃ i, args.cmd = some (SubCommand.rage i)) :
    Event.stalenessCheck ∉ (doMain env args).1 ∧
      Event.stalenessWarning ∉ (doMain env args).1 := by
  have hsub : ∀ cfg pOpt, Event.stalenessCheck ∉ (mainSub env args cfg pOpt).1 ∧
      Event.stalenessWarning ∉ (mainSub env args cfg pOpt).1 := by
    intro cfg pOpt
    rcases h with ⟨d, hd⟩ | ⟨i, hd⟩ <;>
      simp [mainSub, runSubcommand, hd]
  rcases doMain_cases env args with ⟨⟨msg, hm⟩, hcause⟩ | ⟨msg, hm⟩ |
      ⟨cfg, pOpt, hcfg, hpo, hrest⟩
  · rw [hm]; simp
  · rw [hm]; simp
  · obtain ⟨hs1, hs2⟩ := hsub cfg pOpt
    rcases hrest with ⟨msg, hw, hm⟩ | ⟨hw, hm⟩ <;> rw [hm] <;> constructor <;>
      simp_all

/-- C6: for a Format invocation the candidate linter set is restricted to
formatter specs before skip and take filtering runs, so every linter list
carried by a lint-run event of the trace contains only formatters,
whatever the skip and take arguments contain. -/
theorem format_restricts_to_formatters (env : Env) (args : Args)
    (hcmd : args.cmd = some SubCommand.format) :
    ((doMain env args).1.all fun e =>
      ((lintRunLinters? e).getD []).all fun l => l.isFormatter) = true := by
  have hsub : ∀ cfg pOpt, ((mainSub env args cfg pOpt).1.all fun e =>
      ((lintRunLinters? e).getD []).all fun l => l.isFormatter) = true := by
    intro cfg pOpt
    by_cases hf : env.configFingerprint = env.initFingerprint <;>
      simp [mainSub, runSubcommand, hcmd, checkInitChanged, hf, allLintersOf,
        lintRunLinters?, getLintersFromConfig_all_formatter]
  rcases doMain_cases env args with ⟨⟨msg, hm⟩, hcause⟩ | ⟨msg, hm⟩ |
      ⟨cfg, pOpt, hcfg, hpo, hrest⟩
  · rw [hm]; simp [lintRunLinters?]
  · rw [hm]; simp [lintRunLinters?]
  · have hs := hsub cfg pOpt
    rcases hrest with ⟨msg, hw, hm⟩ | ⟨hw, hm⟩ <;> rw [hm] <;>
      simp_all [List.all_append, lintRunLinters?] <;> exact hs

/-- C8: every lint-run event of a Format invocation carries the
apply-patches argument true, whatever the user flag was; for the Lint
subcommand (explicit or defaulted) the apply-patches argument equals the
user flag. -/
theorem format_forces_apply_patches (env : Env) (args : Args) :
    (args.cmd = some SubCommand.format →
      ((doMain env args).1.all fun e => (patchFlag? e).getD true) = true) ∧
    (args.cmd.getD SubCommand.lint = SubCommand.lint →
      ((doMain env args).1.all fun e =>
        (patchFlag? e).getD args.applyPatches == args.applyPatches) = true) := by
  constructor
  · intro hcmd
    have hsub : ∀ cfg pOpt, ((mainSub env args cfg pOpt).1.all fun e =>
        (patchFlag? e).getD true) = true := by
      intro cfg pOpt
      by_cases hf : env.configFingerprint = env.initFingerprint <;>
        simp [mainSub, runSubcommand, hcmd, checkInitChanged, hf, patchFlag?]
    rcases doMain_cases env args with ⟨⟨msg, hm⟩, hcause⟩ | ⟨msg, hm⟩ |
        ⟨cfg, pOpt, hcfg, hpo, hrest⟩
    · rw [hm]; simp [patchFlag?]
    · rw [hm]; simp [patchFlag?]
    · have hs := hsub cfg pOpt
      rcases hrest with ⟨msg, hw, hm⟩ | ⟨hw, hm⟩ <;> rw [hm] <;>
        simp_all [List.all_append, patchFlag?]
  · intro hcmd
    have hsub : ∀ cfg pOpt, ((mainSub env args cfg pOpt).1.all fun e =>
        (patchFlag? e).getD args.applyPatches == args.applyPatches) = true := by
      intro cfg pOpt
      by_cases hf : env.configFingerprint = env.initFingerprint <;>
        simp [mainSub, runSubcommand, hcmd, checkInitChanged, hf, patchFlag?]
    rcases doMain_cases env args with ⟨⟨msg, hm⟩, hcause⟩ | ⟨msg, hm⟩ |
        ⟨cfg, pOpt, hcfg, hpo, hrest⟩
    · rw [hm]; simp [patchFlag?]
    · rw [hm]; simp [patchFlag?]
    · have hs := hsub cfg pOpt
      rcases hrest with ⟨msg, hw, hm⟩ | ⟨hw, hm⟩ <;> rw [hm] <;>
        simp_all [List.all_append, patchFlag?]

/-- Helper: the value of `doMain` once every setup step has succeeded; only
the final ledger write remains undetermined. -/
lemma doMain_setup (env : Env) (args : Args) {p r : String} {cfg : LintRunnerConfig}
    {pOpt : PathsOpt}
    (h1 : env.absPath args.config = Except.ok p)
    (h2 : env.dataStoreErr = none)
    (h3 : env.loggerErr = none)
    (h4 : env.headRev = Except.ok r)
    (h5 : env.configRes = Except.ok cfg)
    (h6 : env.getLintersErr = none)
    (h7 : pathsOptRes env args = Except.ok pOpt) :
    doMain env args =
      (match env.writeErr with
       | some e =>
         ([Event.ledgerStart (runInfoOf env)] ++ (mainSub env args cfg pOpt).1,
           Except.error e)
       | none =>
         ([Event.ledgerStart (runInfoOf env)] ++ (mainSub env args cfg pOpt).1 ++
             [Event.ledgerFinalize (mkExitInfo (mainSub env args cfg pOpt).2)],
           (mainSub env args cfg pOpt).2)) := by
  simp only [doMain, h1, h2, h3, h4, h5, h6, h7, mainSub]

/-- Helper: the exit record carries the code and carries an error text
exactly when the run failed. -/
lemma mkExitInfo_spec (res : Except String Int) :
    ((mkExitInfo res).err = none ↔ ∃ c, res = Except.ok c) ∧
    (∀ e, res = Except.error e → mkExitInfo res = { code := 1, err := some e }) ∧
    (∀ c, res = Except.ok c → mkExitInfo res = { code := c, err := none }) := by
  cases res <;> simp [mkExitInfo]

/-- C2: for a Lint or Format invocation that reaches the subcommand
dispatch, the staleness comparison is the event right after the ledger
start, before any lint run; a lint run always occurs afterwards whatever
the fingerprints are, a mismatch surfaces the warning, and matching
fingerprints surface none. -/
theorem staleness_check_before_lint (env : Env) (args : Args)
    (hs : setupOk env args)
    (hcmd : args.cmd.getD SubCommand.lint = SubCommand.format ∨
      args.cmd.getD SubCommand.lint = SubCommand.lint) :
    ∃ post, (doMain env args).1 =
        Event.ledgerStart (runInfoOf env) :: Event.stalenessCheck :: post ∧
      post.any isLintRun = true ∧
      (env.configFingerprint ≠ env.initFingerprint →
        Event.stalenessWarning ∈ (doMain env args).1) ∧
      (env.configFingerprint = env.initFingerprint →
        Event.stalenessWarning ∉ (doMain env args).1) := by
  obtain ⟨⟨p, h1⟩, h2, h3, ⟨r, h4⟩, ⟨cfg, h5⟩, h6, ⟨pOpt, h7⟩⟩ := hs
  rw [doMain_setup env args h1 h2 h3 h4 h5 h6 h7]
  rcases hw : env.writeErr with _ | e <;>
    rcases hcmd with hc | hc <;>
      by_cases hf : env.configFingerprint = env.initFingerprint <;>
        simp only [mainSub, runSubcommand, hc, checkInitChanged, hf, if_true, if_false,
          List.cons_append, List.nil_append, List.singleton_append, List.append_assoc] <;>
        refine ⟨_, rfl, ?_, ?_, ?_⟩ <;>
          simp [isLintRun]

/-- C3 (counterexample): an invocation whose configuration path fails to
resolve returns an error having appended no ledger entry at all: the trace
is empty, so it is not the case that every invocation appends one
LedgerEntry. -/
theorem ledger_entry_missing_on_config_error :
    (doMain envNoConfig argsBase).1 = [] ∧
    (doMain envNoConfig argsBase).1.countP isLedgerStart = 0 ∧
    (doMain envNoConfig argsBase).2 =
      Except.error ("Could not read lintrunner config at: " ++ argsBase.config) := by
  refine ⟨rfl, rfl, rfl⟩

/-- C3 (amended): once the configuration path resolves and the data store
is created, exactly one RunInfo ledger entry is appended and it is the
first event, before any subcommand runs; when additionally the remaining
setup steps and the final ledger write succeed, the run ends with exactly
one finalize event carrying an ExitInfo whose error text is present exactly
when the subcommand result failed, with code 1 on failure and the result
code on success. -/
theorem ledger_entry_lifecycle (env : Env) (args : Args)
    (habs : ∃ p, env.absPath args.config = Except.ok p)
    (hstore : env.dataStoreErr = none) :
    ((doMain env args).1.head? = some (Event.ledgerStart (runInfoOf env)) ∧
      (doMain env args).1.countP isLedgerStart = 1) ∧
    (setupOk env args → env.writeErr = none →
      (doMain env args).1.countP isLedgerFinalize = 1 ∧
      (doMain env args).1.getLast? =
        some (Event.ledgerFinalize (mkExitInfo (doMain env args).2)) ∧
      ((mkExitInfo (doMain env args).2).err = none ↔
        ∃ c, (doMain env args).2 = Except.ok c) ∧
      (∀ e, (doMain env args).2 = Except.error e →
        mkExitInfo (doMain env args).2 = { code := 1, err := some e }) ∧
      (∀ c, (doMain env args).2 = Except.ok c →
        mkExitInfo (doMain env args).2 = { code := c, err := none })) := by
  constructor
  · rcases doMain_cases env args with ⟨⟨msg, hm⟩, hcause⟩ | ⟨msg, hm⟩ |
        ⟨cfg, pOpt, hcfg, hpo, hrest⟩
    · rcases hcause with hc | hc
      · obtain ⟨p, hp⟩ := habs
        exact absurd hp (hc p)
      · exact absurd hstore hc
    · rw [hm]
      simp [isLedgerStart, List.countP_cons]
    · obtain ⟨hc1, hc2⟩ := mainSub_countP_ledger env args cfg pOpt
      rcases hrest with ⟨msg, hw, hm⟩ | ⟨hw, hm⟩ <;> rw [hm] <;>
        simp [isLedgerStart, isLedgerFinalize, List.countP_append, List.countP_cons, hc1]
  · intro hs hw
    obtain ⟨⟨p, h1⟩, h2, h3, ⟨r, h4⟩, ⟨cfg, h5⟩, h6, ⟨pOpt, h7⟩⟩ := hs
    have hd := doMain_setup env args h1 h2 h3 h4 h5 h6 h7
    rw [hw] at hd
    dsimp only at hd
    rw [hd]
    obtain ⟨hc1, hc2⟩ := mainSub_countP_ledger env args cfg pOpt
    refine ⟨?_, ?_, (mkExitInfo_spec _).1, (mkExitInfo_spec _).2.1, (mkExitInfo_spec _).2.2⟩
    · simp [isLedgerFinalize, List.countP_append, List.countP_cons, hc2]
    · rw [List.getLast?_concat]

/-- C7 (counterexample): a run whose core lint succeeds with exit code 0
but whose final ledger write fails returns the ledger error and the
process exits 1 instead of 0; the identical run with a succeeding ledger
write exits 0, so the write failure did alter the outcome. -/
theorem ledger_write_failure_changes_exit :
    (doMain envWriteFail argsBase).2 = Except.error "disk full" ∧
    (main envWriteFail argsBase).2 = 1 ∧
    (main envBase argsBase).2 = 0 ∧
    (doMain envWriteFail argsBase).1.countP isLintRun = 1 := by
  refine ⟨rfl, rfl, rfl, rfl⟩

/-- C7 (amended): a failure of the final run-history write replaces the
core outcome: whenever setup succeeded and the ledger write fails,
`do_main` returns the ledger error, the process exits 1 whatever the core
result was, and the ledger entry is never finalized. -/
theorem ledger_write_failure_overrides_result (env : Env) (args : Args)
    (hs : setupOk env args) (e : String) (hw : env.writeErr = some e) :
    (doMain env args).2 = Except.error e ∧
    (main env args).2 = 1 ∧
    (doMain env args).1.countP isLedgerFinalize = 0 := by
  obtain ⟨⟨p, h1⟩, h2, h3, ⟨r, h4⟩, ⟨cfg, h5⟩, h6, ⟨pOpt, h7⟩⟩ := hs
  have hd := doMain_setup env args h1 h2 h3 h4 h5 h6 h7
  rw [hw] at hd
  dsimp only at hd
  obtain ⟨hc1, hc2⟩ := mainSub_countP_ledger env args cfg pOpt
  refine ⟨?_, ?_, ?_⟩
  · rw [hd]
  · unfold main
    rw [hd]
  · rw [hd]
    simp [isLedgerFinalize, List.countP_append, List.countP_cons, hc2]

/-- Witness for C1 at concrete inputs: the successful baseline run exits
with its code 0, and a run with an unresolvable configuration path exits 1
after printing the error. -/
theorem main_exit_code_contract_app :
    (main envBase argsBase).2 = 0 ∧
    ((main envNoConfig argsBase).2 = 1 ∧
      Event.printError ("Could not read lintrunner config at: " ++ argsBase.config) ∈
        (main envNoConfig argsBase).1) :=
  ⟨(main_exit_code_contract envBase argsBase).1 0 rfl,
    (main_exit_code_contract envNoConfig argsBase).2
      ("Could not read lintrunner config at: " ++ argsBase.config) rfl⟩

/-- Witness for C9 at concrete inputs, one per precedence clause. -/
theorem revision_opt_precedence_app :
    revisionOpt argsRev cfgDemo = RevisionOpt.revision "HEAD~3" ∧
    revisionOpt argsMb cfgDemo = RevisionOpt.mergeBaseWith "main" ∧
    revisionOpt argsBase cfgMb = RevisionOpt.mergeBaseWith "origin/main" ∧
    revisionOpt argsBase cfgDemo = RevisionOpt.head :=
  ⟨(revision_opt_precedence argsRev cfgDemo).1 "HEAD~3" rfl,
    (revision_opt_precedence argsMb cfgDemo).2.1 "main" rfl rfl,
    (revision_opt_precedence argsBase cfgMb).2.2.1 rfl rfl (by decide),
    (revision_opt_precedence argsBase cfgDemo).2.2.2 rfl rfl rfl⟩

/-- Witness for C4 at concrete inputs, one per clause. -/
theorem auto_default_diff_target_app :
    diffBaseOf "h0" (fun a b => a ++ "*" ++ b) (revisionOpt argsBase cfgDemo) =
      DiffBase.workingVsRev "h0" ∧
    diffBaseOf "h0" (fun a b => a ++ "*" ++ b) (revisionOpt argsRev cfgDemo) =
      DiffBase.workingVsRev "HEAD~3" ∧
    diffBaseOf "h0" (fun a b => a ++ "*" ++ b) (revisionOpt argsMb cfgDemo) =
      DiffBase.workingVsRev ("main" ++ "*" ++ "h0") ∧
    diffBaseOf "h0" (fun a b => a ++ "*" ++ b) (revisionOpt argsBase cfgMb) =
      DiffBase.workingVsRev ("origin/main" ++ "*" ++ "h0") :=
  ⟨(auto_default_diff_target envBase argsBase cfgDemo "h0"
      (fun a b => a ++ "*" ++ b) rfl).1 rfl rfl rfl,
    (auto_default_diff_target envBase argsRev cfgDemo "h0"
      (fun a b => a ++ "*" ++ b) rfl).2.1 "HEAD~3" rfl,
    (auto_default_diff_target envBase argsMb cfgDemo "h0"
      (fun a b => a ++ "*" ++ b) rfl).2.2.1 "main" rfl rfl,
    (auto_default_diff_target envBase argsBase cfgMb "h0"
      (fun a b => a ++ "*" ++ b) rfl).2.2.2 rfl rfl (by decide)⟩

/-- Witness for C5 at concrete inputs, one per precedence clause. -/
theorem paths_opt_precedence_app :
    pathsOptRes envBase argsFrom = Except.ok (PathsOpt.pathsFile "/repo/list.txt") ∧
    pathsOptRes envBase argsCmdP = Except.ok (PathsOpt.pathsCmd "git grep -Il .") ∧
    pathsOptRes envBase argsPaths = Except.ok (PathsOpt.paths ["a.py", "b.py"]) ∧
    pathsOptRes envBase argsAll = Except.ok PathsOpt.allFiles ∧
    pathsOptRes envBase argsBase = Except.ok PathsOpt.auto := by
  refine ⟨?_, ?_, ?_, ?_, ?_⟩
  · have h := (paths_opt_precedence envBase argsFrom).1 "list.txt" rfl
    simpa using h
  · exact (paths_opt_precedence envBase argsCmdP).2.1 "git grep -Il ." rfl rfl
  · exact (paths_opt_precedence envBase argsPaths).2.2.1 rfl rfl (by decide)
  · exact (paths_opt_precedence envBase argsAll).2.2.2.1 rfl rfl rfl rfl
  · exact (paths_opt_precedence envBase argsBase).2.2.2.2 rfl rfl rfl rfl

/-- Witness for C10: a Rage invocation in a stale environment performs no
staleness comparison and surfaces no warning. -/
theorem staleness_only_lint_and_format_app :
    Event.stalenessCheck ∉ (doMain envStale argsRage).1 ∧
      Event.stalenessWarning ∉ (doMain envStale argsRage).1 :=
  staleness_only_lint_and_format envStale argsRage (Or.inr ⟨none, rfl⟩)

/-- Witness for C6: the Format run with a take list naming a non-formatter
still carries only formatter linters, and it does reach a lint run. -/
theorem format_restricts_to_formatters_app :
    ((doMain envBase argsFormat).1.all fun e =>
      ((lintRunLinters? e).getD []).all fun l => l.isFormatter) = true ∧
    (doMain envBase argsFormat).1.countP isLintRun = 1 :=
  ⟨format_restricts_to_formatters envBase argsFormat rfl, by rfl⟩

/-- Witness for C8: the Format run without the apply-patches flag still
lints with patches applied, and the baseline Lint run follows the flag. -/
theorem format_forces_apply_patches_app :
    ((doMain envBase argsFormat).1.all fun e => (patchFlag? e).getD true) = true ∧
    ((doMain envBase argsBase).1.all fun e =>
      (patchFlag? e).getD argsBase.applyPatches == argsBase.applyPatches) = true :=
  ⟨(format_forces_apply_patches envBase argsFormat).1 rfl,
    (format_forces_apply_patches envBase argsBase).2 rfl⟩

/-- Witness for C2: a stale-fingerprint Lint run checks staleness right
after the ledger start, warns, and still lints. -/
theorem staleness_check_before_lint_app :
    ∃ post, (doMain envStale argsBase).1 =
        Event.ledgerStart (runInfoOf envStale) :: Event.stalenessCheck :: post ∧
      post.any isLintRun = true ∧
      (envStale.configFingerprint ≠ envStale.initFingerprint →
        Event.stalenessWarning ∈ (doMain envStale argsBase).1) ∧
      (envStale.configFingerprint = envStale.initFingerprint →
        Event.stalenessWarning ∉ (doMain envStale argsBase).1) :=
  staleness_check_before_lint envStale argsBase
    ⟨⟨"/repo/.lintrunner.toml", rfl⟩, rfl, rfl, ⟨"abc123", rfl⟩, ⟨cfgDemo, rfl⟩, rfl,
      ⟨PathsOpt.auto, rfl⟩⟩
    (Or.inr rfl)

/-- Witness for C3 (amended) at the successful baseline run. -/
theorem ledger_entry_lifecycle_app :
    (doMain envBase argsBase).1.head? = some (Event.ledgerStart (runInfoOf envBase)) ∧
    (doMain envBase argsBase).1.countP isLedgerStart = 1 ∧
    (doMain envBase argsBase).1.countP isLedgerFinalize = 1 :=
  ⟨(ledger_entry_lifecycle envBase argsBase ⟨"/repo/.lintrunner.toml", rfl⟩ rfl).1.1,
    (ledger_entry_lifecycle envBase argsBase ⟨"/repo/.lintrunner.toml", rfl⟩ rfl).1.2,
    ((ledger_entry_lifecycle envBase argsBase ⟨"/repo/.lintrunner.toml", rfl⟩ rfl).2
      ⟨⟨"/repo/.lintrunner.toml", rfl⟩, rfl, rfl, ⟨"abc123", rfl⟩, ⟨cfgDemo, rfl⟩, rfl,
        ⟨PathsOpt.auto, rfl⟩⟩ rfl).1⟩

/-- Witness for C7 (amended) at the write-failing run. -/
theorem ledger_write_failure_overrides_result_app :
    (doMain envWriteFail argsBase).2 = Except.error "disk full" ∧
    (main envWriteFail argsBase).2 = 1 ∧
    (doMain envWriteFail argsBase).1.countP isLedgerFinalize = 0 :=
  ledger_write_failure_overrides_result envWriteFail argsBase
    ⟨⟨"/repo/.lintrunner.toml", rfl⟩, rfl, rfl, ⟨"abc123", rfl⟩, ⟨cfgDemo, rfl⟩, rfl,
      ⟨PathsOpt.auto, rfl⟩⟩ "disk full" rfl

end Lintrunner
